import Mathlib

/-!
Verification development for the SecretShare per-identifier storage core.

The definitions below are a shallow embedding of the Cloudflare Durable
Object `SecretDurableObject` (methods `handleStore`, `handleRetrieve`,
`handleStatus`, `alarm`) together with the store route of
`src/routes/secrets.ts`.  Time is modelled as a natural number of
milliseconds (the code stores ISO strings derived from the same clock
reads); each handler invocation receives the clock reading it performs as
an explicit parameter.  The Durable Object state is the single stored
record slot plus the single scheduled alarm time (`setAlarm` overwrites
it, a fired alarm is consumed).
-/

namespace SecretShare

/-- The three persisted lifecycle states of a record. -/
inductive RecStatus
  | pending
  | viewed
  | expired
deriving DecidableEq

/-- The `SecretRecord` interface of `types.ts`.  Timestamps are modelled as
milliseconds; optional string fields as `Option String`. -/
structure SecretRecord where
  encrypted : String
  salt : Option String
  passwordProtected : Bool
  createdAt : Nat
  expiresAt : Nat
  viewedAt : Option Nat
  status : RecStatus
  creatorUserId : Option String
  viewerCountry : Option String
deriving DecidableEq

/-- Durable Object state: the stored record slot and the scheduled alarm. -/
structure DOState where
  record : Option SecretRecord
  alarmAt : Option Nat
deriving DecidableEq

/-- METADATA_TTL_MS = 30 days, as in secret-do. -/
def METADATA_TTL_MS : Nat := 30 * 24 * 60 * 60 * 1000

/-- Result of the Durable Object store handler. -/
inductive StoreResult
  | created
  | conflict
deriving DecidableEq

/-- The response body of a successful retrieve. -/
structure RetrieveSnapshot where
  encrypted : String
  salt : Option String
  passwordProtected : Bool
  createdAt : Nat
  expiresAt : Nat
deriving DecidableEq

/-- Result of the retrieve handler: either the snapshot, or the uniform
404 error body. -/
inductive RetrieveResult
  | ok (snap : RetrieveSnapshot)
  | notFound (errorMsg : String) (httpStatus : Nat)
deriving DecidableEq

/-- Is the retrieve result a success? -/
def isOk : RetrieveResult → Bool
  | RetrieveResult.ok _ => true
  | RetrieveResult.notFound _ _ => false

/-- handleStore: reject with Conflict if a record already exists, otherwise
persist the candidate record verbatim and set the alarm at the handler's
current time plus ttlMs. -/
def handleStore (nowDO : Nat) (rec : SecretRecord) (ttlMs : Nat)
    (s : DOState) : DOState × StoreResult :=
  match s.record with
  | some _ => (s, StoreResult.conflict)
  | none =>
      ({ record := some rec, alarmAt := some (nowDO + ttlMs) },
       StoreResult.created)

/-- The idiom hdr.get or-else undefined: an empty header value becomes
absent. -/
def orUndefined (hdr : Option String) : Option String :=
  match hdr with
  | none => none
  | some c => if c = "" then none else some c

/-- The in-place burn performed by handleRetrieve before the put. -/
def burnRecord (r : SecretRecord) (now : Nat) (hdr : Option String) :
    SecretRecord :=
  { r with encrypted := "", salt := none, status := RecStatus.viewed,
           viewedAt := some now, viewerCountry := orUndefined hdr }

/-- handleRetrieve: uniform 404 when no record exists or the record is not
pending; otherwise capture the snapshot, burn the record, persist it and
reschedule the alarm at now + METADATA_TTL_MS. -/
def handleRetrieve (now : Nat) (hdr : Option String) (s : DOState) :
    DOState × RetrieveResult :=
  match s.record with
  | none =>
      (s, RetrieveResult.notFound "Secret not found or already viewed" 404)
  | some record =>
      if record.status ≠ RecStatus.pending then
        (s, RetrieveResult.notFound "Secret not found or already viewed" 404)
      else
        ({ record := some (burnRecord record now hdr),
           alarmAt := some (now + METADATA_TTL_MS) },
         RetrieveResult.ok
           { encrypted := record.encrypted, salt := record.salt,
             passwordProtected := record.passwordProtected,
             createdAt := record.createdAt, expiresAt := record.expiresAt })

/-- Serialisation of a status to its JSON string. -/
def statusName : RecStatus → String
  | RecStatus.pending => "pending"
  | RecStatus.viewed => "viewed"
  | RecStatus.expired => "expired"

/-- The JSON body returned by handleStatus; absent fields are modelled as
none. -/
structure StatusResponse where
  status : String
  createdAt : Option Nat
  expiresAt : Option Nat
  viewedAt : Option Nat
  viewerCountry : Option String
deriving DecidableEq

/-- handleStatus: unknown when no record exists, otherwise the persisted
metadata. -/
def handleStatus (s : DOState) : StatusResponse :=
  match s.record with
  | none =>
      { status := "unknown", createdAt := none, expiresAt := none,
        viewedAt := none, viewerCountry := none }
  | some record =>
      { status := statusName record.status,
        createdAt := some record.createdAt,
        expiresAt := some record.expiresAt,
        viewedAt := record.viewedAt,
        viewerCountry := record.viewerCountry }

/-- The in-place mutation performed by the Phase-1 branch of alarm. -/
def expireRecord (r : SecretRecord) : SecretRecord :=
  { r with encrypted := "", salt := none, status := RecStatus.expired }

/-- alarm: if a record exists and is still pending, mark it expired, clear
the sensitive fields and reschedule the alarm after the retention window
(Phase 1); otherwise delete everything (Phase 2).  The alarm that fired is
consumed. -/
def alarm (now : Nat) (s : DOState) : DOState :=
  match s.record with
  | some record =>
      if record.status = RecStatus.pending then
        { record := some (expireRecord record),
          alarmAt := some (now + METADATA_TTL_MS) }
      else
        { record := none, alarmAt := none }
  | none => { record := none, alarmAt := none }

/-- Operations on one identifier, applied one at a time (the Durable
Object serialises them). -/
inductive Op
  | storeOp (now : Nat) (rec : SecretRecord) (ttlMs : Nat)
  | retrieveOp (now : Nat) (hdr : Option String)
  | statusOp
  | alarmOp (now : Nat)
deriving DecidableEq

/-- The state transformation of one operation. -/
def applyOp (op : Op) (s : DOState) : DOState :=
  match op with
  | Op.storeOp now rec ttl => (handleStore now rec ttl s).1
  | Op.retrieveOp now hdr => (handleRetrieve now hdr s).1
  | Op.statusOp => s
  | Op.alarmOp now => alarm now s

/-- Is the operation a Store? -/
def isStoreOp : Op → Bool
  | Op.storeOp _ _ _ => true
  | _ => false

/-- Number of Retrieve operations along a trace that receive the payload. -/
def successCount : DOState → List Op → Nat
  | _, [] => 0
  | s, op :: ops =>
      (match op with
       | Op.retrieveOp now hdr =>
           if isOk (handleRetrieve now hdr s).2 then 1 else 0
       | _ => 0) + successCount (applyOp op s) ops

/-- Does the state hold a pending record? -/
def isPending (s : DOState) : Bool :=
  match s.record with
  | some r =>
      match r.status with
      | RecStatus.pending => true
      | RecStatus.viewed => false
      | RecStatus.expired => false
  | none => false

/-- MAX_ENCRYPTED_SIZE = 70 KB, as in the store route. -/
def MAX_ENCRYPTED_SIZE : Nat := 70 * 1024

/-- isValidSecretId of services/id.ts: exactly 22 base64url characters
(the regex test stated over the character list of the string). -/
def isValidSecretId (id : String) : Bool :=
  id.data.length == 22 &&
    id.data.all (fun c => c.isAlphanum || c == '_' || c == '-')

/-- The ALLOWED_TTLS lookup table of the store route (seconds). -/
def ALLOWED_TTLS (ttl : Nat) : Option Nat :=
  if ttl = 3600 ∨ ttl = 86400 ∨ ttl = 604800 ∨ ttl = 2592000 then some ttl
  else none

/-- The request body of POST /api/secrets. -/
structure SecretCreateRequest where
  id : String
  encrypted : String
  salt : Option String
  passwordProtected : Bool
  ttl : Nat
deriving DecidableEq

/-- Result of the store route. -/
inductive RouteStoreResult
  | badRequest (msg : String)
  | forbidden (msg : String)
  | conflict
  | created (id : String)
deriving DecidableEq

/-- Does the request carry a salt longer than the route allows? -/
def saltInvalid : Option String → Bool
  | some t => 100 < t.length
  | none => false

/-- The store route of secrets.ts followed by the Durable Object store
handler.  The route reads its own clock (nowRoute) to build createdAt and
expiresAt; the Durable Object reads its clock again (nowDO) when setting
the alarm. -/
def routeStore (nowRoute nowDO : Nat) (body : SecretCreateRequest)
    (user : Option String) (s : DOState) : DOState × RouteStoreResult :=
  if isValidSecretId body.id = false then
    (s, RouteStoreResult.badRequest "Invalid secret ID")
  else if body.encrypted = "" then
    (s, RouteStoreResult.badRequest "Missing encrypted payload")
  else if MAX_ENCRYPTED_SIZE < body.encrypted.length then
    (s, RouteStoreResult.badRequest "Encrypted payload too large")
  else if saltInvalid body.salt then
    (s, RouteStoreResult.badRequest "Invalid salt")
  else
    match ALLOWED_TTLS body.ttl with
    | none => (s, RouteStoreResult.badRequest "Invalid TTL value")
    | some ttlSeconds =>
        if body.ttl = 2592000 ∧ user = none then
          (s, RouteStoreResult.forbidden "Sign in to use 30-day expiry")
        else
          let record : SecretRecord :=
            { encrypted := body.encrypted, salt := body.salt,
              passwordProtected := body.passwordProtected,
              createdAt := nowRoute,
              expiresAt := nowRoute + ttlSeconds * 1000,
              viewedAt := none, status := RecStatus.pending,
              creatorUserId := user, viewerCountry := none }
          match handleStore nowDO record (ttlSeconds * 1000) s with
          | (s2, StoreResult.created) => (s2, RouteStoreResult.created body.id)
          | (s2, StoreResult.conflict) => (s2, RouteStoreResult.conflict)

/-! ## Helper lemmas for the at-most-one-read property -/

lemma isPending_applyOp_false (op : Op) (s : DOState)
    (hop : isStoreOp op = false) (hs : isPending s = false) :
    isPending (applyOp op s) = false := by
  obtain ⟨rec, al⟩ := s
  cases op with
  | storeOp now r ttl => simp [isStoreOp] at hop
  | statusOp => exact hs
  | retrieveOp now hdr =>
      cases rec with
      | none => simpa [applyOp, handleRetrieve] using hs
      | some r =>
          cases hr : r.status with
          | pending => simp [isPending, hr] at hs
          | viewed => simp [applyOp, handleRetrieve, hr, isPending]
          | expired => simp [applyOp, handleRetrieve, hr, isPending]
  | alarmOp now =>
      cases rec with
      | none => simp [applyOp, alarm, isPending]
      | some r =>
          cases hr : r.status with
          | pending => simp [isPending, hr] at hs
          | viewed => simp [applyOp, alarm, hr, isPending]
          | expired => simp [applyOp, alarm, hr, isPending]

lemma isOk_false_of_notPending (now : Nat) (hdr : Option String)
    (s : DOState) (hs : isPending s = false) :
    isOk (handleRetrieve now hdr s).2 = false := by
  obtain ⟨rec, al⟩ := s
  cases rec with
  | none => simp [handleRetrieve, isOk]
  | some r =>
      cases hr : r.status with
      | pending => simp [isPending, hr] at hs
      | viewed => simp [handleRetrieve, hr, isOk]
      | expired => simp [handleRetrieve, hr, isOk]

lemma isPending_after_success (now : Nat) (hdr : Option String)
    (s : DOState) (h : isOk (handleRetrieve now hdr s).2 = true) :
    isPending (handleRetrieve now hdr s).1 = false := by
  obtain ⟨rec, al⟩ := s
  cases rec with
  | none => simp [handleRetrieve, isOk] at h
  | some r =>
      cases hr : r.status with
      | pending => simp [handleRetrieve, hr, isPending, burnRecord]
      | viewed => simp [handleRetrieve, hr, isOk] at h
      | expired => simp [handleRetrieve, hr, isOk] at h

lemma successCount_eq_zero (ops : List Op) (s : DOState)
    (h : ∀ op ∈ ops, isStoreOp op = false) (hs : isPending s = false) :
    successCount s ops = 0 := by
  induction ops generalizing s with
  | nil => rfl
  | cons op ops ih =>
      have hop : isStoreOp op = false := h op (List.mem_cons_self _ _)
      have hrest : ∀ o ∈ ops, isStoreOp o = false :=
        fun o ho => h o (List.mem_cons_of_mem _ ho)
      have hnext := isPending_applyOp_false op s hop hs
      cases op with
      | storeOp now r ttl => simp [isStoreOp] at hop
      | statusOp => simpa [successCount] using ih _ hrest hnext
      | alarmOp now => simpa [successCount] using ih _ hrest hnext
      | retrieveOp now hdr =>
          have hf := isOk_false_of_notPending now hdr s hs
          simpa [successCount, hf] using ih _ hrest hnext

lemma successCount_le_one (ops : List Op) (s : DOState)
    (h : ∀ op ∈ ops, isStoreOp op = false) :
    successCount s ops ≤ 1 := by
  induction ops generalizing s with
  | nil => simp [successCount]
  | cons op ops ih =>
      have hop : isStoreOp op = false := h op (List.mem_cons_self _ _)
      have hrest : ∀ o ∈ ops, isStoreOp o = false :=
        fun o ho => h o (List.mem_cons_of_mem _ ho)
      cases op with
      | storeOp now r ttl => simp [isStoreOp] at hop
      | statusOp => simpa [successCount] using ih _ hrest
      | alarmOp now => simpa [successCount] using ih _ hrest
      | retrieveOp now hdr =>
          cases hok : isOk (handleRetrieve now hdr s).2 with
          | true =>
              have h0 := successCount_eq_zero ops _ hrest
                (isPending_after_success now hdr s hok)
              simp [successCount, hok, applyOp] at h0 ⊢
              simp [h0]
          | false =>
              simpa [successCount, hok] using ih _ hrest

lemma notFound_of_not_ok (now : Nat) (hdr : Option String) (t : DOState)
    (hf : isOk (handleRetrieve now hdr t).2 = false) :
    (handleRetrieve now hdr t).2 =
      RetrieveResult.notFound "Secret not found or already viewed" 404 := by
  obtain ⟨rec, al⟩ := t
  cases rec with
  | none => simp [handleRetrieve]
  | some r =>
      cases hr : r.status with
      | pending => simp [handleRetrieve, hr, isOk] at hf
      | viewed => simp [handleRetrieve, hr]
      | expired => simp [handleRetrieve, hr]

/-! ## Concrete example states used to instantiate the theorems -/

/-- A pending record as stored by the route for a password-protected
secret. -/
def exRecord : SecretRecord :=
  { encrypted := "ZW5jcnlwdGVkLWJsb2I", salt := some "c2FsdHNhbHQ",
    passwordProtected := true, createdAt := 100, expiresAt := 3600100,
    viewedAt := none, status := RecStatus.pending,
    creatorUserId := some "user-1", viewerCountry := none }

/-- A state holding the pending example record with its Phase-1 alarm. -/
def exState : DOState := { record := some exRecord, alarmAt := some 3600100 }

/-- A burned record (after a successful retrieve). -/
def viewedRecord : SecretRecord :=
  { encrypted := "", salt := none, passwordProtected := true,
    createdAt := 100, expiresAt := 3600100, viewedAt := some 500,
    status := RecStatus.viewed, creatorUserId := some "user-1",
    viewerCountry := some "US" }

/-- A state holding the burned record with its Phase-2 alarm. -/
def viewedState : DOState :=
  { record := some viewedRecord, alarmAt := some 2592000500 }

/-- A store-free trace of operations on one identifier. -/
def exOps : List Op :=
  [Op.retrieveOp 200 (some "US"), Op.retrieveOp 300 none,
   Op.alarmOp 400, Op.statusOp, Op.retrieveOp 450 (some "DE")]

/-! ## Claim theorems -/

/-- Claim C1: with all operations on one identifier applied one at a time,
at most one Retrieve between a record's creation and its deletion (a trace
containing no Store) observes the pending status and receives the payload,
and every Retrieve that does not succeed returns the uniform NotFound
response. -/
theorem at_most_one_read (s : DOState) (ops : List Op)
    (h : ∀ op ∈ ops, isStoreOp op = false) :
    successCount s ops ≤ 1 ∧
    ∀ (t : DOState) (now : Nat) (hdr : Option String),
      isOk (handleRetrieve now hdr t).2 = false →
      (handleRetrieve now hdr t).2 =
        RetrieveResult.notFound "Secret not found or already viewed" 404 :=
  ⟨successCount_le_one ops s h,
   fun t now hdr hf => notFound_of_not_ok now hdr t hf⟩

theorem at_most_one_read_witness :
    successCount exState exOps ≤ 1 :=
  (at_most_one_read exState exOps (by decide)).1

/-- Claim C2: a Retrieve on a pending record returns the stored payload,
auxiliary, protected flag, createdAt and expiresAt as a snapshot, and in
the same step the persisted record has empty payload, no auxiliary, status
Viewed, viewedAt set to the current time and viewerHint set from the
caller, with the Phase-2 alarm scheduled at now plus the 30-day retention
window. -/
theorem retrieve_burns_atomically (s : DOState) (r : SecretRecord)
    (now : Nat) (hdr : Option String)
    (h : s.record = some r) (hp : r.status = RecStatus.pending) :
    handleRetrieve now hdr s =
      ({ record := some
           { r with
             encrypted := "", salt := none, status := RecStatus.viewed,
             viewedAt := some now, viewerCountry := orUndefined hdr },
         alarmAt := some (now + 30 * 24 * 60 * 60 * 1000) },
       RetrieveResult.ok
         { encrypted := r.encrypted, salt := r.salt,
           passwordProtected := r.passwordProtected,
           createdAt := r.createdAt, expiresAt := r.expiresAt }) := by
  obtain ⟨rec, al⟩ := s
  have hr : rec = some r := h
  subst hr
  simp [handleRetrieve, hp, burnRecord, METADATA_TTL_MS]

theorem retrieve_burns_atomically_witness :
    handleRetrieve 500 (some "US") exState =
      ({ record := some
           { exRecord with
             encrypted := "", salt := none, status := RecStatus.viewed,
             viewedAt := some 500, viewerCountry := orUndefined (some "US") },
         alarmAt := some (500 + 30 * 24 * 60 * 60 * 1000) },
       RetrieveResult.ok
         { encrypted := exRecord.encrypted, salt := exRecord.salt,
           passwordProtected := exRecord.passwordProtected,
           createdAt := exRecord.createdAt,
           expiresAt := exRecord.expiresAt }) :=
  retrieve_burns_atomically exState exRecord 500 (some "US") rfl rfl

/-- Claim C3: a Store on an identifier that already has a record, in any
status, returns Conflict and leaves the whole state (record and alarm
schedule) unchanged. -/
theorem store_conflict_preserves_state (s : DOState) (r : SecretRecord)
    (h : s.record = some r) (nowDO : Nat) (rec : SecretRecord)
    (ttlMs : Nat) :
    handleStore nowDO rec ttlMs s = (s, StoreResult.conflict) := by
  obtain ⟨rc, al⟩ := s
  have hr : rc = some r := h
  subst hr
  simp [handleStore]

theorem store_conflict_preserves_state_witness :
    handleStore 999 exRecord 60000 viewedState =
      (viewedState, StoreResult.conflict) :=
  store_conflict_preserves_state viewedState viewedRecord rfl 999 exRecord 60000

/-- Claim C7: a Retrieve returns the uniform NotFound response exactly when
no record exists or the record is not pending, and any two Retrieves that
do not succeed (never-existed, already-viewed or expired) receive
identical responses. -/
theorem retrieve_notFound_uniform (s : DOState) (now : Nat)
    (hdr : Option String) :
    ((handleRetrieve now hdr s).2 =
        RetrieveResult.notFound "Secret not found or already viewed" 404 ↔
      (s.record = none ∨
        ∃ r, s.record = some r ∧ r.status ≠ RecStatus.pending)) ∧
    ∀ (s2 : DOState) (now2 : Nat) (hdr2 : Option String),
      isOk (handleRetrieve now hdr s).2 = false →
      isOk (handleRetrieve now2 hdr2 s2).2 = false →
      (handleRetrieve now hdr s).2 = (handleRetrieve now2 hdr2 s2).2 := by
  constructor
  · obtain ⟨rec, al⟩ := s
    cases rec with
    | none => simp [handleRetrieve]
    | some r =>
        cases hr : r.status with
        | pending => simp [handleRetrieve, hr]
        | viewed => simp [handleRetrieve, hr]
        | expired => simp [handleRetrieve, hr]
  · intro s2 now2 hdr2 hf1 hf2
    rw [notFound_of_not_ok now hdr s hf1, notFound_of_not_ok now2 hdr2 s2 hf2]

theorem retrieve_notFound_uniform_witness :
    (handleRetrieve 600 none viewedState).2 =
      (handleRetrieve 700 (some "FR") { record := none, alarmAt := none }).2 :=
  (retrieve_notFound_uniform viewedState 600 none).2
    { record := none, alarmAt := none } 700 (some "FR") (by decide) (by decide)

/-- Claim C10: a successful Retrieve modifies only the payload, auxiliary,
status, viewedAt and viewerCountry fields of the record; createdAt,
expiresAt, passwordProtected and creatorUserId are left exactly as stored,
and the Status response afterwards reports the original createdAt and
expiresAt. -/
theorem retrieve_frame (s : DOState) (r : SecretRecord) (now : Nat)
    (hdr : Option String)
    (h : s.record = some r) (hp : r.status = RecStatus.pending) :
    ((handleRetrieve now hdr s).1).record =
      some
        { r with
          encrypted := "", salt := none, status := RecStatus.viewed,
          viewedAt := some now, viewerCountry := orUndefined hdr } ∧
    (∀ r2, ((handleRetrieve now hdr s).1).record = some r2 →
      r2.createdAt = r.createdAt ∧ r2.expiresAt = r.expiresAt ∧
      r2.passwordProtected = r.passwordProtected ∧
      r2.creatorUserId = r.creatorUserId) ∧
    (handleStatus (handleRetrieve now hdr s).1).createdAt =
      some r.createdAt ∧
    (handleStatus (handleRetrieve now hdr s).1).expiresAt =
      some r.expiresAt := by
  obtain ⟨rec, al⟩ := s
  have hr : rec = some r := h
  subst hr
  refine ⟨by simp [handleRetrieve, hp, burnRecord], ?_, ?_, ?_⟩
  · intro r2 h2
    simp [handleRetrieve, hp, burnRecord] at h2
    subst h2
    exact ⟨rfl, rfl, rfl, rfl⟩
  · simp [handleRetrieve, hp, burnRecord, handleStatus]
  · simp [handleRetrieve, hp, burnRecord, handleStatus]

theorem retrieve_frame_witness :
    ((handleRetrieve 500 (some "GB") exState).1).record =
      some
        { exRecord with
          encrypted := "", salt := none, status := RecStatus.viewed,
          viewedAt := some 500, viewerCountry := orUndefined (some "GB") } :=
  (retrieve_frame exState exRecord 500 (some "GB") rfl rfl).1

/-- A still-pending record whose expiry time has passed but whose Phase-1
alarm has not yet fired. -/
def pastDueRecord : SecretRecord :=
  { encrypted := "U1RBTEUtQ0lQSEVS", salt := some "c3RhbGVzYWx0",
    passwordProtected := true, createdAt := 0, expiresAt := 1000,
    viewedAt := none, status := RecStatus.pending, creatorUserId := none,
    viewerCountry := none }

/-- The state holding the past-due pending record. -/
def pastDueState : DOState :=
  { record := some pastDueRecord, alarmAt := some 1000 }

/-- Claim C4 counterexample: at time 2000, past the record's expiry time
1000, a Retrieve on the still-pending record returns the payload rather
than NotFound; no due transition is performed before the operation. -/
theorem stale_pending_retrieve_returns_payload :
    pastDueRecord.expiresAt < 2000 ∧
    pastDueRecord.status = RecStatus.pending ∧
    (handleRetrieve 2000 none pastDueState).2 =
      RetrieveResult.ok
        { encrypted := "U1RBTEUtQ0lQSEVS", salt := some "c3RhbGVzYWx0",
          passwordProtected := true, createdAt := 0, expiresAt := 1000 } := by
  decide

/-- Claim C4 (amended): no operation performs a lazy due-time check;
transitions happen only when the scheduled alarm fires.  A Retrieve on a
still-pending record succeeds even when its expiry time has passed, and
only after the alarm has fired does a Retrieve return the uniform
NotFound. -/
theorem retrieve_ignores_elapsed_time (s : DOState) (r : SecretRecord)
    (now : Nat) (hdr : Option String)
    (h : s.record = some r) (hp : r.status = RecStatus.pending)
    (_hdue : r.expiresAt ≤ now) :
    isOk (handleRetrieve now hdr s).2 = true ∧
    ∀ (now2 : Nat) (hdr2 : Option String),
      (handleRetrieve now2 hdr2 (alarm now s)).2 =
        RetrieveResult.notFound "Secret not found or already viewed" 404 := by
  obtain ⟨rec, al⟩ := s
  have hr : rec = some r := h
  subst hr
  constructor
  · simp [handleRetrieve, hp, isOk]
  · intro now2 hdr2
    simp [alarm, hp, handleRetrieve, expireRecord]

theorem retrieve_ignores_elapsed_time_witness :
    isOk (handleRetrieve 2000 (some "US") pastDueState).2 = true :=
  (retrieve_ignores_elapsed_time pastDueState pastDueRecord 2000 (some "US")
    rfl rfl (by decide)).1

/-- Claim C5 counterexample: the alarm firing on an already-burned record
(status Viewed) does not leave the record unchanged with a rescheduled
Phase-2 timer; it deletes the record and schedules nothing. -/
theorem alarm_on_viewed_deletes :
    viewedState.record = some viewedRecord ∧
    viewedRecord.status = RecStatus.viewed ∧
    (alarm 5000 viewedState).record = none ∧
    (alarm 5000 viewedState).alarmAt = none := by
  decide

/-- Claim C5 (amended): an alarm firing transitions Pending to Expired
(clearing payload and auxiliary) and reschedules the Phase-2 timer after
the retention window only when the record is still pending at fire time;
when the record is not pending (Viewed or Expired) the firing deletes the
record entirely, the Phase-2 cleanup.  A Phase-1 firing after a burn does
not occur as a separate event, because Retrieve replaces the single
scheduled alarm with the Phase-2 time. -/
theorem alarm_two_phase (s : DOState) (r : SecretRecord) (now : Nat)
    (h : s.record = some r) :
    (r.status = RecStatus.pending →
      alarm now s =
        { record := some
            { r with
              encrypted := "", salt := none, status := RecStatus.expired },
          alarmAt := some (now + METADATA_TTL_MS) }) ∧
    (r.status ≠ RecStatus.pending →
      alarm now s = { record := none, alarmAt := none }) ∧
    (r.status = RecStatus.pending → ∀ hdr : Option String,
      ((handleRetrieve now hdr s).1).alarmAt =
        some (now + METADATA_TTL_MS)) := by
  obtain ⟨rec, al⟩ := s
  have hr : rec = some r := h
  subst hr
  refine ⟨?_, ?_, ?_⟩
  · intro hp
    simp [alarm, hp, expireRecord]
  · intro hnp
    simp [alarm, hnp]
  · intro hp hdr
    simp [handleRetrieve, hp]

theorem alarm_two_phase_witness :
    alarm 700 exState =
      { record := some
          { exRecord with
            encrypted := "", salt := none, status := RecStatus.expired },
        alarmAt := some (700 + METADATA_TTL_MS) } :=
  (alarm_two_phase exState exRecord 700 rfl).1 rfl

/-- Claim C6: the alarm firing on a record in status Viewed or Expired
deletes the record entirely, and Status afterwards returns the same
response as for an identifier that was never created. -/
theorem phase2_deletes_record (s : DOState) (r : SecretRecord) (now : Nat)
    (h : s.record = some r)
    (hst : r.status = RecStatus.viewed ∨ r.status = RecStatus.expired) :
    (alarm now s).record = none ∧
    handleStatus (alarm now s) =
      handleStatus { record := none, alarmAt := none } ∧
    handleStatus (alarm now s) =
      { status := "unknown", createdAt := none, expiresAt := none,
        viewedAt := none, viewerCountry := none } := by
  obtain ⟨rec, al⟩ := s
  have hr : rec = some r := h
  subst hr
  cases hst with
  | inl hv => refine ⟨?_, ?_, ?_⟩ <;> simp [alarm, hv, handleStatus]
  | inr he => refine ⟨?_, ?_, ?_⟩ <;> simp [alarm, he, handleStatus]

theorem phase2_deletes_record_witness :
    handleStatus (alarm 9999 viewedState) =
      { status := "unknown", createdAt := none, expiresAt := none,
        viewedAt := none, viewerCountry := none } :=
  (phase2_deletes_record viewedState viewedRecord 9999 rfl (Or.inl rfl)).2.2

/-- A valid store request body for an anonymous non-protected secret. -/
def exCreateBody : SecretCreateRequest :=
  { id := "AAAAAAAAAAAAAAAAAAAAAA", encrypted := "Y2lwaGVy",
    salt := none, passwordProtected := false, ttl := 3600 }

/-- Claim C8 counterexample: the route reads its clock at 0 and computes
expiresAt = 3600000, but the Durable Object reads its clock again at 5
when setting the alarm, so the Phase-1 alarm is at 3600005, not exactly
expiresAt. -/
theorem store_alarm_clock_skew :
    (routeStore 0 5 exCreateBody none
      { record := none, alarmAt := none }).2 =
      RouteStoreResult.created "AAAAAAAAAAAAAAAAAAAAAA" ∧
    Option.map SecretRecord.expiresAt
      ((routeStore 0 5 exCreateBody none
        { record := none, alarmAt := none }).1).record = some 3600000 ∧
    ((routeStore 0 5 exCreateBody none
      { record := none, alarmAt := none }).1).alarmAt = some 3600005 ∧
    some (3600005 : Nat) ≠ some (3600000 : Nat) := by
  decide

/-- Claim C8 (amended): for an identifier with no existing record and a
valid request, Store persists the candidate record with status Pending,
createdAt equal to the route's clock reading and expiresAt equal to
createdAt plus the ttl, returns Created, and schedules the Phase-1 alarm
at the Durable Object's own clock reading plus the ttl, which equals
expiresAt exactly when the two clock readings coincide. -/
theorem store_creates_pending (nowRoute nowDO : Nat)
    (body : SecretCreateRequest) (user : Option String) (s : DOState)
    (ttlSeconds : Nat)
    (habs : s.record = none)
    (hid : isValidSecretId body.id = true)
    (henc : body.encrypted ≠ "")
    (hsize : ¬ MAX_ENCRYPTED_SIZE < body.encrypted.length)
    (hsalt : saltInvalid body.salt = false)
    (httl : ALLOWED_TTLS body.ttl = some ttlSeconds)
    (hauth : ¬ (body.ttl = 2592000 ∧ user = none)) :
    routeStore nowRoute nowDO body user s =
      ({ record := some
           { encrypted := body.encrypted, salt := body.salt,
             passwordProtected := body.passwordProtected,
             createdAt := nowRoute,
             expiresAt := nowRoute + ttlSeconds * 1000,
             viewedAt := none, status := RecStatus.pending,
             creatorUserId := user, viewerCountry := none },
         alarmAt := some (nowDO + ttlSeconds * 1000) },
       RouteStoreResult.created body.id) ∧
    (nowDO = nowRoute →
      ((routeStore nowRoute nowDO body user s).1).alarmAt =
        Option.map SecretRecord.expiresAt
          ((routeStore nowRoute nowDO body user s).1).record) := by
  obtain ⟨rc, al⟩ := s
  have hr : rc = none := habs
  subst hr
  constructor
  · simp [routeStore, hid, henc, hsize, hsalt, httl, hauth, handleStore]
  · intro he
    simp [routeStore, hid, henc, hsize, hsalt, httl, hauth, handleStore, he]

theorem store_creates_pending_witness :
    routeStore 100 100 exCreateBody none
      { record := none, alarmAt := none } =
      ({ record := some
           { encrypted := exCreateBody.encrypted, salt := exCreateBody.salt,
             passwordProtected := exCreateBody.passwordProtected,
             createdAt := 100, expiresAt := 100 + 3600 * 1000,
             viewedAt := none, status := RecStatus.pending,
             creatorUserId := none, viewerCountry := none },
         alarmAt := some (100 + 3600 * 1000) },
       RouteStoreResult.created exCreateBody.id) :=
  (store_creates_pending 100 100 exCreateBody none
    { record := none, alarmAt := none } 3600 rfl (by decide) (by decide)
    (by decide) rfl (by decide) (by decide)).1

/-- The data-model invariant exactly as the claim states it: payload and
auxiliary are non-empty if and only if the record is pending. -/
def payloadAuxInvariant (s : DOState) : Prop :=
  ∀ r, s.record = some r →
    ((r.encrypted ≠ "" ↔ r.status = RecStatus.pending) ∧
     (r.salt ≠ none ↔ r.status = RecStatus.pending))

/-- A pending record stored without a salt, as the route produces for any
secret that is not password-protected. -/
def noSaltRecord : SecretRecord :=
  { encrypted := "cGxhaW5jaXBoZXI", salt := none,
    passwordProtected := false, createdAt := 0, expiresAt := 3600000,
    viewedAt := none, status := RecStatus.pending, creatorUserId := none,
    viewerCountry := none }

/-- Claim C9 counterexample: storing a pending record with no salt yields
a state violating the claimed invariant, since the record is pending but
its auxiliary is empty. -/
theorem payload_aux_invariant_fails :
    ¬ payloadAuxInvariant
      (handleStore 0 noSaltRecord 3600000
        { record := none, alarmAt := none }).1 := by
  intro hinv
  have h2 := (hinv noSaltRecord rfl).2
  exact (h2.mpr rfl) rfl

/-- The amended invariant: payload is non-empty exactly when the record is
pending, and the auxiliary is absent whenever the record is not pending
(a pending record may lack an auxiliary). -/
def payloadAuxInvariantAmended (s : DOState) : Prop :=
  ∀ r, s.record = some r →
    ((r.encrypted ≠ "" ↔ r.status = RecStatus.pending) ∧
     (r.status ≠ RecStatus.pending → r.salt = none))

/-- Does a store operation carry a pending record with non-empty payload,
as the route guarantees? -/
def goodStoreOp : Op → Prop
  | Op.storeOp _ rec _ =>
      rec.status = RecStatus.pending ∧ rec.encrypted ≠ ""
  | _ => True

/-- Claim C9 (amended): given every Store carries a pending record with
non-empty payload, every operation preserves the invariant that the
payload is non-empty exactly when the record is pending and the auxiliary
is empty whenever the record is not pending. -/
theorem payload_invariant_preserved (op : Op) (s : DOState)
    (hop : goodStoreOp op) (hs : payloadAuxInvariantAmended s) :
    payloadAuxInvariantAmended (applyOp op s) := by
  obtain ⟨rec, al⟩ := s
  cases op with
  | statusOp => exact hs
  | storeOp now r0 ttl =>
      obtain ⟨hp0, he0⟩ := hop
      cases rec with
      | none =>
          intro r hmem
          have hr : r0 = r := by
            simpa [applyOp, handleStore] using hmem
          subst hr
          exact ⟨⟨fun _ => hp0, fun _ => he0⟩, fun hnp => absurd hp0 hnp⟩
      | some r1 =>
          have hstate :
              applyOp (Op.storeOp now r0 ttl) ⟨some r1, al⟩ =
                ⟨some r1, al⟩ := by
            simp [applyOp, handleStore]
          rw [hstate]
          exact hs
  | retrieveOp now hdr =>
      cases rec with
      | none => exact hs
      | some r1 =>
          cases hr1 : r1.status with
          | pending =>
              intro r hmem
              have hb : burnRecord r1 now hdr = r := by
                simpa [applyOp, handleRetrieve, hr1] using hmem
              subst hb
              refine ⟨?_, ?_⟩
              · simp [burnRecord]
              · intro _
                simp [burnRecord]
          | viewed =>
              have hstate :
                  applyOp (Op.retrieveOp now hdr) ⟨some r1, al⟩ =
                    ⟨some r1, al⟩ := by
                simp [applyOp, handleRetrieve, hr1]
              rw [hstate]
              exact hs
          | expired =>
              have hstate :
                  applyOp (Op.retrieveOp now hdr) ⟨some r1, al⟩ =
                    ⟨some r1, al⟩ := by
                simp [applyOp, handleRetrieve, hr1]
              rw [hstate]
              exact hs
  | alarmOp now =>
      cases rec with
      | none =>
          intro r hmem
          simp [applyOp, alarm] at hmem
      | some r1 =>
          cases hr1 : r1.status with
          | pending =>
              intro r hmem
              have hb : expireRecord r1 = r := by
                simpa [applyOp, alarm, hr1] using hmem
              subst hb
              refine ⟨?_, ?_⟩
              · simp [expireRecord]
              · intro _
                simp [expireRecord]
          | viewed =>
              intro r hmem
              simp [applyOp, alarm, hr1] at hmem
          | expired =>
              intro r hmem
              simp [applyOp, alarm, hr1] at hmem

theorem payload_invariant_preserved_witness :
    payloadAuxInvariantAmended
      (applyOp (Op.storeOp 0 noSaltRecord 3600000)
        { record := none, alarmAt := none }) :=
  payload_invariant_preserved (Op.storeOp 0 noSaltRecord 3600000)
    { record := none, alarmAt := none } ⟨rfl, by decide⟩
    (fun r hmem => nomatch hmem)

end SecretShare
